import Mathlib

/-
A shallow embedding of the PaiScore scoring engine (source file PaiScoreV3.py,
the most feature-complete variant, which the specification designates as the
authoritative design).

Modelling conventions:
- Python floats are modelled as rationals (ℚ).
- A `datetime.date` is modelled as an absolute day number (ℤ); `year` and
  `month` of a day number are recovered with a standard proleptic-Gregorian
  conversion (`civilFromDays`, day 0 = 1970-01-01).  Date subtraction,
  comparison and `timedelta` addition become integer operations.
- The participant registry (a Python dict) is modelled as a function
  `String → Option User`; insertion is pointwise update.
- A Python function that can raise becomes a function returning
  `Except String _`; `handle_user_action` additionally returns the state it
  has built so far, mirroring the fact that in Python the mutations already
  performed survive an exception.  Its Python counterpart reports an unknown
  event type by returning `None` instead of a user; this is embedded as the
  result `Except.ok none`.
-/

set_option maxRecDepth 4000

-- Let concrete rational arithmetic reduce during elaboration, so that
-- closed instances of the scoring pipeline can be settled by `decide`.
attribute [local semireducible] Rat.add Rat.mul Rat.sub Rat.inv Rat.ofScientific

/-- Proleptic-Gregorian conversion from an absolute day number
(day 0 = 1970-01-01) to `(year, month, day)`.  Models the `year`/`month`
accessors of Python `datetime.date`. -/
def civilFromDays (z0 : ℤ) : ℤ × ℤ × ℤ :=
  let z := z0 + 719468
  let era := Int.fdiv z 146097
  let doe := z - era * 146097
  let yoe := Int.fdiv (doe - Int.fdiv doe 1460 + Int.fdiv doe 36524 - Int.fdiv doe 146096) 365
  let y := yoe + era * 400
  let doy := doe - (365 * yoe + Int.fdiv yoe 4 - Int.fdiv yoe 100)
  let mp := Int.fdiv (5 * doy + 2) 153
  let d := doy - Int.fdiv (153 * mp + 2) 5 + 1
  let m := if mp < 10 then mp + 3 else mp - 9
  (if m ≤ 2 then y + 1 else y, m, d)

/-- The `.year` field of a date given as an absolute day number. -/
def dateYear (d : ℤ) : ℤ := (civilFromDays d).1

/-- The `.month` field of a date given as an absolute day number. -/
def dateMonth (d : ℤ) : ℤ := (civilFromDays d).2.1

/-- One catalog entry of `ACTION_WEIGHTS`: the scoring parameters of one
event type.  `target_score` and `delay_factor` are optional keys of the
Python dict; `score`, `decay`, `allowed_for` and `affects_target` are present
in every entry. -/
structure ActionWeights where
  score : ℚ
  target_score : Option ℚ := none
  decay : ℚ
  allowed_for : List String
  affects_target : Bool
  delay_factor : Option ℚ := none
deriving DecidableEq

def w_LOGIN : ActionWeights :=
  { score := 0.5, decay := 0.05, allowed_for := ["common", "advertiser"], affects_target := false }
def w_AD_LIKED : ActionWeights :=
  { score := 1.0, target_score := some 2.0, decay := 0.03,
    allowed_for := ["common"], affects_target := true, delay_factor := some 0.97 }
def w_POSITIVE_COMMENT : ActionWeights :=
  { score := 2.0, target_score := some 2.5, decay := 0.02,
    allowed_for := ["common"], affects_target := true, delay_factor := some 0.98 }
def w_AD_SHARED : ActionWeights :=
  { score := 4.0, target_score := some 3.0, decay := 0.01,
    allowed_for := ["common", "advertiser"], affects_target := true, delay_factor := some 0.98 }
def w_AD_VISITED : ActionWeights :=
  { score := 0.3, target_score := some 1.5, decay := 0.07,
    allowed_for := ["common"], affects_target := true, delay_factor := some 0.96 }
def w_GAINED_FOLLOWER : ActionWeights :=
  { score := 5.0, decay := 0.01, allowed_for := ["advertiser"], affects_target := false }
def w_FOLLOWED_USER : ActionWeights :=
  { score := 0.7, target_score := some 1.5, decay := 0.08,
    allowed_for := ["common", "advertiser"], affects_target := true }
def w_SENT_MESSAGE : ActionWeights :=
  { score := 1.0, decay := 0.03, allowed_for := ["common", "advertiser"], affects_target := false }
def w_RECEIVED_MESSAGE : ActionWeights :=
  { score := 0.5, decay := 0.03, allowed_for := ["common", "advertiser"], affects_target := false }
def w_RESPONDED_TO_MESSAGE : ActionWeights :=
  { score := 1.2, decay := 0.03, allowed_for := ["advertiser"], affects_target := false }
def w_ADDED_TO_FAVOURITES : ActionWeights :=
  { score := 4.0, target_score := some 1.0, decay := 0.01,
    allowed_for := ["common"], affects_target := true, delay_factor := some 0.97 }
def w_VISITED_PROFILE : ActionWeights :=
  { score := 0.4, target_score := some 0.4, decay := 0.06,
    allowed_for := ["common"], affects_target := true }
def w_AD_POSTED_FREE : ActionWeights :=
  { score := 4.0, decay := 0.02, allowed_for := ["advertiser"], affects_target := false }
def w_AD_POSTED_PAI : ActionWeights :=
  { score := 8.0, decay := 0.01, allowed_for := ["advertiser"], affects_target := false }
def w_AD_POSTED_MONEY : ActionWeights :=
  { score := 15.0, decay := 0.005, allowed_for := ["advertiser"], affects_target := false }
def w_RESPONDED_TO_REVIEW : ActionWeights :=
  { score := 1.0, target_score := some 0.5, decay := 0.02,
    allowed_for := ["advertiser"], affects_target := true, delay_factor := some 0.99 }
def w_GAVE_RATING : ActionWeights :=
  { score := 1.5, decay := 0.04, allowed_for := ["common"], affects_target := false }
def w_RECEIVED_RATING : ActionWeights :=
  { score := 3.5, decay := 0.02, allowed_for := ["advertiser"], affects_target := false }
def w_VERIFIED_PROFILE : ActionWeights :=
  { score := 10.0, decay := 0.0, allowed_for := ["common", "advertiser"], affects_target := false }
def w_REVIEW_RECEIVED : ActionWeights :=
  { score := 2.0, decay := 0.02, allowed_for := ["advertiser"], affects_target := false }
def w_AD_BLOCKED : ActionWeights :=
  { score := -5.0, decay := 0.0, allowed_for := ["advertiser"], affects_target := false }
def w_AD_REPORTED : ActionWeights :=
  { score := -6.0, decay := 0.0, allowed_for := ["common"], affects_target := false }
def w_REPORTED_ADVERTISER : ActionWeights :=
  { score := -20.0, decay := 0.0, allowed_for := ["advertiser"], affects_target := false }
def w_INACTIVITY : ActionWeights :=
  { score := -3.0, decay := 0.0, allowed_for := ["common", "advertiser"], affects_target := false }

/-- The static event catalog `ACTION_WEIGHTS`: lookup by event-type
identifier, `none` for an identifier absent from the catalog. -/
def ACTION_WEIGHTS (t : String) : Option ActionWeights :=
  match t with
  | "LOGIN" => some w_LOGIN
  | "AD_LIKED" => some w_AD_LIKED
  | "POSITIVE_COMMENT" => some w_POSITIVE_COMMENT
  | "AD_SHARED" => some w_AD_SHARED
  | "AD_VISITED" => some w_AD_VISITED
  | "GAINED_FOLLOWER" => some w_GAINED_FOLLOWER
  | "FOLLOWED_USER" => some w_FOLLOWED_USER
  | "SENT_MESSAGE" => some w_SENT_MESSAGE
  | "RECEIVED_MESSAGE" => some w_RECEIVED_MESSAGE
  | "RESPONDED_TO_MESSAGE" => some w_RESPONDED_TO_MESSAGE
  | "ADDED_TO_FAVOURITES" => some w_ADDED_TO_FAVOURITES
  | "VISITED_PROFILE" => some w_VISITED_PROFILE
  | "AD_POSTED_FREE" => some w_AD_POSTED_FREE
  | "AD_POSTED_PAI" => some w_AD_POSTED_PAI
  | "AD_POSTED_MONEY" => some w_AD_POSTED_MONEY
  | "RESPONDED_TO_REVIEW" => some w_RESPONDED_TO_REVIEW
  | "GAVE_RATING" => some w_GAVE_RATING
  | "RECEIVED_RATING" => some w_RECEIVED_RATING
  | "VERIFIED_PROFILE" => some w_VERIFIED_PROFILE
  | "REVIEW_RECEIVED" => some w_REVIEW_RECEIVED
  | "AD_BLOCKED" => some w_AD_BLOCKED
  | "AD_REPORTED" => some w_AD_REPORTED
  | "REPORTED_ADVERTISER" => some w_REPORTED_ADVERTISER
  | "INACTIVITY" => some w_INACTIVITY
  | _ => none

/-- One badge tier (name and perks), a value of the `BADGE_LEVELS` dict. -/
structure Badge where
  name : String
  perks : String
deriving DecidableEq

def badgeNew : Badge := { name := "New", perks := "No PAI coin trade, limited ads" }
def badgeExplorer : Badge := { name := "Explorer", perks := "Can view all ads, earn coins" }
def badgeTrusted : Badge := { name := "Trusted", perks := "Can trade coins, appear higher in feed" }
def badgeElite : Badge := { name := "Elite", perks := "Premium ads, faster rewards" }
def badgeAmbassador : Badge := { name := "Ambassador", perks := "First access, spotlight ads, bonus coins" }

/-- `BADGE_LEVELS`: badge tiers keyed by inclusive integer score ranges,
in the insertion order of the Python dict. -/
def BADGE_LEVELS : List ((ℤ × ℤ) × Badge) :=
  [((0, 29), badgeNew),
   ((30, 59), badgeExplorer),
   ((60, 79), badgeTrusted),
   ((80, 94), badgeElite),
   ((95, 100), badgeAmbassador)]

def MAX_AGE_SCORE_CONTRIBUTION : ℚ := 20

/-- A `UserAction`: one event record.  As in the Python constructor, the
catalog entry for the action type is cached in the record
(`self.weights = ACTION_WEIGHTS[action_type]`). -/
structure UserAction where
  action_type : String
  date : ℤ
  actor : Bool
  weights : ActionWeights
  delay_days : ℕ
deriving DecidableEq

/-- The `UserAction` constructor: `none` models the `ValueError` raised when
the action type is not defined in the catalog. -/
def UserAction.make (action_type : String) (date : ℤ) (actor : Bool)
    (delay_days : ℕ) : Option UserAction :=
  (ACTION_WEIGHTS action_type).map fun w =>
    { action_type := action_type, date := date, actor := actor,
      weights := w, delay_days := delay_days }

/-- `UserAction.get_effective_score`: the record's contribution as of
`current_date`.  `score`/`target_score` selection by role, temporal decay for
positive decay rates, and the delay penalty when a delay-penalty factor
below 1 is configured and the delay is positive. -/
def UserAction.get_effective_score (a : UserAction) (current_date : ℤ) : ℚ :=
  let days_old : ℤ := current_date - a.date
  let base_score : ℚ := if a.actor then a.weights.score else a.weights.target_score.getD 0
  let decay : ℚ := a.weights.decay
  let delay_factor : ℚ := a.weights.delay_factor.getD 1
  -- exponent `max(days_old, 0)`: `Int.toNat` clamps a negative elapsed time to zero
  let score : ℚ :=
    if 0 < decay then base_score * (1 - decay) ^ days_old.toNat else base_score
  if 0 < a.delay_days ∧ delay_factor < 1 then score * delay_factor ^ a.delay_days else score

/-- A `User`: profile plus event history and derived scoring state. -/
structure User where
  name : String
  type : Option String
  creation_date : ℤ
  action_history : List UserAction
  score : ℚ
  badge : Option Badge
  age_score_component : ℚ
  last_action_date : Option ℤ
deriving DecidableEq

/-- `User.__init__`: a fresh user with empty history, score 0 and no badge.
The role class is `Option String` because the Python dispatcher may create a
user with `user_type=None`. -/
def User.init (name : String) (creation_date : ℤ) (user_type : Option String) : User :=
  { name := name, type := user_type, creation_date := creation_date,
    action_history := [], score := 0, badge := none,
    age_score_component := 0, last_action_date := none }

/-- `User.add_action` with an already-constructed record: appends it to the
history and updates `last_action_date` when the new date is strictly later
(or no last date was recorded yet).  At every call site of the Python
`add_action`, the catalog entry carried by the record is exactly
`ACTION_WEIGHTS[action_type]`, which the Python constructor would look up. -/
def User.add_action (u : User) (a : UserAction) : User :=
  { u with
    action_history := u.action_history ++ [a],
    last_action_date :=
      match u.last_action_date with
      | none => some a.date
      | some d => if d < a.date then some a.date else some d }

/-- Python truthiness of an optional string (`None` and `""` are falsy). -/
def optTruthy : Option String → Bool
  | none => false
  | some s => decide (s ≠ "")

/-- The membership test `actor.type in allowed_for`; a user whose role class
is `None` is never a member. -/
def typeAllowed : Option String → List String → Bool
  | none, _ => false
  | some t, allowed => allowed.contains t

/-- `PaiSystem`: the scoring-engine state — participant registry, history
window, (unused) inactivity threshold and the simulated current date. -/
structure PaiSystem where
  users : String → Option User
  history_days : ℕ
  inactivity_days : ℕ
  current_date : ℤ

/-- Store (or overwrite) the registry entry for `name`. -/
def PaiSystem.setUser (s : PaiSystem) (name : String) (u : User) : PaiSystem :=
  { s with users := fun m => if m = name then some u else s.users m }

/-- `PaiSystem.get_or_create_user`.  Creates the user on first reference
(creation date defaulting to the current date); for an existing user, a
truthy `user_type` different from the stored role class raises `ValueError`
(the `Except.error` case), otherwise the stored user is returned.  The state
is returned alongside, the error branch mutating nothing. -/
def PaiSystem.get_or_create_user (s : PaiSystem) (name : String)
    (user_type : Option String) (creation_date : Option ℤ) :
    PaiSystem × Except String User :=
  match s.users name with
  | none =>
      let u := User.init name (creation_date.getD s.current_date) user_type
      (s.setUser name u, .ok u)
  | some u =>
      if optTruthy user_type = true ∧ u.type ≠ user_type then
        (s, .error ("User " ++ name ++ " type mismatch."))
      else (s, .ok u)

/-- `PaiSystem._get_badge_for_score`: scan `BADGE_LEVELS` for the first
inclusive range containing the score; out-of-range fallbacks return the
top / bottom tier, and a score matching no case yields `none`. -/
def get_badge_for_score (score : ℚ) : Option Badge :=
  match BADGE_LEVELS.find? (fun e => decide ((e.1.1 : ℚ) ≤ score ∧ score ≤ (e.1.2 : ℚ))) with
  | some e => some e.2
  | none =>
      if 100 < score then some badgeAmbassador
      else if score < 0 then some badgeNew
      else none

/-- The whole-month difference used by `_calculate_age_score`:
`(current.year - creation.year) * 12 + (current.month - creation.month)`. -/
def totalMonths (current creation : ℤ) : ℤ :=
  (dateYear current - dateYear creation) * 12 + (dateMonth current - dateMonth creation)

/-- The piecewise age multiplier of `_calculate_age_score`, a function of the
whole-month account age converted to fractional years. -/
def ageMultiplier (total_months : ℤ) : ℚ :=
  let account_age_years : ℚ := (total_months : ℚ) / 12
  if 8 ≤ account_age_years then 0.5
  else if 5 ≤ account_age_years then 0.4
  else if 2 ≤ account_age_years then 0.3
  else 0.15

/-- The clamp `max(0, min(100, x))` of `update_user_score`, written with
plain conditionals (it agrees with `max 0 (min 100 x)`, see
`clampScore_eq_max_min`). -/
def clampScore (x : ℚ) : ℚ :=
  let m : ℚ := if x ≤ 100 then x else 100
  if m ≤ 0 then 0 else m

/-- The body of `PaiSystem.update_user_score` applied to one user, with the
engine's current date and history window passed explicitly: prune the
history to the window, sum effective scores, compute and cache the age
bonus, clamp the total into [0, 100], store score and badge. -/
def recomputeUserAt (today : ℤ) (history_days : ℕ) (u : User) : User :=
  let cutoff : ℤ := today - (history_days : ℤ)
  let hist := u.action_history.filter fun a => decide (cutoff ≤ a.date)
  let activity : ℚ := (hist.map fun a => a.get_effective_score today).sum
  let age_score : ℚ := MAX_AGE_SCORE_CONTRIBUTION * ageMultiplier (totalMonths today u.creation_date)
  let final_score : ℚ := clampScore (activity + age_score)
  { u with
    action_history := hist,
    age_score_component := age_score,
    score := final_score,
    badge := get_badge_for_score final_score }

/-- `PaiSystem.update_user_score`: recompute the named participant in place.
(The Python source indexes `self.users[user_name]` and would raise `KeyError`
for an absent name; every call site guarantees presence, and the absent case
is embedded as a no-op.) -/
def PaiSystem.update_user_score (s : PaiSystem) (user_name : String) : PaiSystem :=
  match s.users user_name with
  | none => s
  | some u => s.setUser user_name (recomputeUserAt s.current_date s.history_days u)

/-- `handle_user_action`, the dispatcher entry point.  Returns the updated
engine state together with the Python return value: `.ok none` embeds the
bare `return` (value `None`) on an unknown event type, `.ok (some u)` a
returned user, and `.error` a propagated `ValueError`. -/
def handle_user_action (s : PaiSystem) (user_name action_type : String)
    (user_type : Option String) (action_date : Option ℤ) (creation_date : Option ℤ)
    (target_user_name : Option String) (target_user_type : Option String)
    (target_creation_date : Option ℤ) (delay_days target_delay_days : ℕ) :
    PaiSystem × Except String (Option User) :=
  let adate : ℤ := action_date.getD s.current_date
  match ACTION_WEIGHTS action_type with
  | none => (s, .ok none)
  | some info =>
    match s.get_or_create_user user_name user_type creation_date with
    | (s1, .error e) => (s1, .error e)
    | (s1, .ok actor) =>
      if typeAllowed actor.type info.allowed_for then
        let s2 := (s1.setUser user_name
          (actor.add_action
            { action_type := action_type, date := adate, actor := true,
              weights := info, delay_days := delay_days })).update_user_score user_name
        if info.affects_target then
          match target_user_name with
          | none => (s2, .ok (s2.users user_name))
          | some tname =>
            if tname = "" then (s2, .ok (s2.users user_name))
            else
              match s2.get_or_create_user tname target_user_type target_creation_date with
              | (s3, .error e) => (s3, .error e)
              | (s3, .ok target) =>
                let s4 := (s3.setUser tname
                  (target.add_action
                    { action_type := action_type, date := adate, actor := false,
                      weights := info,
                      delay_days := if target_delay_days = 0 then delay_days else target_delay_days })).update_user_score tname
                (s4, .ok (s4.users user_name))
        else (s2, .ok (s2.users user_name))
      else (s1, .ok (some actor))

/-
Helper lemmas about the engine state.
-/

theorem clampScore_eq_max_min (x : ℚ) : clampScore x = max 0 (min 100 x) := by
  unfold clampScore
  dsimp only
  rw [min_def, max_def]
  split_ifs <;> linarith

theorem clampScore_nonneg (x : ℚ) : 0 ≤ clampScore x := by
  unfold clampScore
  dsimp only
  split_ifs <;> linarith

theorem clampScore_le_100 (x : ℚ) : clampScore x ≤ 100 := by
  unfold clampScore
  dsimp only
  split_ifs <;> linarith

theorem PaiSystem.users_setUser_self (s : PaiSystem) (n : String) (u : User) :
    (s.setUser n u).users n = some u := by
  simp [PaiSystem.setUser]

theorem PaiSystem.users_setUser_ne (s : PaiSystem) (m n : String) (u : User) (h : m ≠ n) :
    (s.setUser n u).users m = s.users m := by
  simp [PaiSystem.setUser, h]

theorem PaiSystem.update_user_score_of_none (s : PaiSystem) (n : String)
    (h : s.users n = none) : s.update_user_score n = s := by
  simp [PaiSystem.update_user_score, h]

theorem PaiSystem.update_user_score_users_self (s : PaiSystem) (n : String) (u : User)
    (h : s.users n = some u) :
    (s.update_user_score n).users n
      = some (recomputeUserAt s.current_date s.history_days u) := by
  simp [PaiSystem.update_user_score, h, PaiSystem.users_setUser_self]

theorem PaiSystem.update_user_score_users_ne (s : PaiSystem) (m n : String) (h : m ≠ n) :
    (s.update_user_score n).users m = s.users m := by
  unfold PaiSystem.update_user_score
  cases hn : s.users n with
  | none => rfl
  | some u => exact PaiSystem.users_setUser_ne _ _ _ _ h

theorem PaiSystem.setUser_current_date (s : PaiSystem) (n : String) (u : User) :
    (s.setUser n u).current_date = s.current_date := rfl

theorem PaiSystem.setUser_history_days (s : PaiSystem) (n : String) (u : User) :
    (s.setUser n u).history_days = s.history_days := rfl

theorem PaiSystem.update_user_score_current_date (s : PaiSystem) (n : String) :
    (s.update_user_score n).current_date = s.current_date := by
  unfold PaiSystem.update_user_score
  cases s.users n <;> rfl

theorem PaiSystem.update_user_score_history_days (s : PaiSystem) (n : String) :
    (s.update_user_score n).history_days = s.history_days := by
  unfold PaiSystem.update_user_score
  cases s.users n <;> rfl

/-- The facts delivered by a successful `get_or_create_user` call: the
returned user is registered under the requested name, no other registry
entry changed, and the clock and window are untouched. -/
theorem PaiSystem.get_or_create_user_ok (s s' : PaiSystem) (n : String)
    (ut : Option String) (cd : Option ℤ) (u : User)
    (h : s.get_or_create_user n ut cd = (s', .ok u)) :
    s'.users n = some u ∧ (∀ m, m ≠ n → s'.users m = s.users m) ∧
    s'.current_date = s.current_date ∧ s'.history_days = s.history_days := by
  unfold PaiSystem.get_or_create_user at h
  cases hn : s.users n with
  | none =>
      rw [hn] at h
      simp only [Prod.mk.injEq] at h
      obtain ⟨hs, hu⟩ := h
      subst hs
      cases hu
      refine ⟨PaiSystem.users_setUser_self _ _ _, ?_, rfl, rfl⟩
      intro m hm
      exact PaiSystem.users_setUser_ne _ _ _ _ hm
  | some v =>
      rw [hn] at h
      dsimp only at h
      by_cases hc : optTruthy ut = true ∧ v.type ≠ ut
      · rw [if_pos hc] at h
        simp at h
      · rw [if_neg hc] at h
        simp only [Prod.mk.injEq] at h
        obtain ⟨hs, hu⟩ := h
        subst hs
        cases hu
        exact ⟨hn, fun _ _ => rfl, rfl, rfl⟩

/-
Claim C1.
-/

/-- C1: for every participant and engine state, after `update_user_score`
the stored score equals `clamp(activitySum + tenureBonus, 0, 100)` (with
`clamp(x,0,100) = max 0 (min 100 x)`), hence every recomputed score
satisfies `0 ≤ score ≤ 100`. -/
theorem recompute_score_clamped (s : PaiSystem) (n : String) (u : User)
    (hu : s.users n = some u) :
    ∃ u', (s.update_user_score n).users n = some u' ∧
      u'.score = max 0 (min 100
        (((u.action_history.filter fun a =>
              decide (s.current_date - (s.history_days : ℤ) ≤ a.date)).map
            fun a => a.get_effective_score s.current_date).sum +
          MAX_AGE_SCORE_CONTRIBUTION * ageMultiplier (totalMonths s.current_date u.creation_date))) ∧
      0 ≤ u'.score ∧ u'.score ≤ 100 := by
  refine ⟨recomputeUserAt s.current_date s.history_days u,
    PaiSystem.update_user_score_users_self s n u hu, ?_, ?_, ?_⟩
  · exact clampScore_eq_max_min _
  · exact clampScore_nonneg _
  · exact clampScore_le_100 _

def c1user : User :=
  { name := "Ana", type := some "advertiser", creation_date := 17000,
    action_history := List.replicate 7
      { action_type := "AD_POSTED_MONEY", date := 20295, actor := true,
        weights := w_AD_POSTED_MONEY, delay_days := 0 },
    score := 0, badge := none, age_score_component := 0, last_action_date := some 20295 }

def c1sys : PaiSystem :=
  { users := fun m => if m = "Ana" then some c1user else none,
    history_days := 30, inactivity_days := 7, current_date := 20300 }

/-- Witness for C1 at a concrete engine state. -/
theorem recompute_score_clamped_witness :
    c1sys.users "Ana" = some c1user ∧
    (∃ u', (c1sys.update_user_score "Ana").users "Ana" = some u' ∧
      u'.score = max 0 (min 100
        (((c1user.action_history.filter fun a =>
              decide (c1sys.current_date - (c1sys.history_days : ℤ) ≤ a.date)).map
            fun a => a.get_effective_score c1sys.current_date).sum +
          MAX_AGE_SCORE_CONTRIBUTION *
            ageMultiplier (totalMonths c1sys.current_date c1user.creation_date))) ∧
      0 ≤ u'.score ∧ u'.score ≤ 100) :=
  ⟨rfl, recompute_score_clamped c1sys "Ana" c1user rfl⟩

/-
Claim C2.
-/

/-- C2: submitting an event type absent from the catalog makes
`handle_user_action` fail to the caller with the distinguished
unknown-event-type result (the source returns `None` instead of a user),
and mutates nothing: the returned state is exactly the input state, so in
particular the registry entry of the named participant is neither created
nor changed. -/
theorem unknown_event_type_no_mutation (s : PaiSystem) (user_name action_type : String)
    (ut : Option String) (ad cd : Option ℤ) (tn tt : Option String) (tc : Option ℤ)
    (dd td : ℕ) (h : ACTION_WEIGHTS action_type = none) :
    handle_user_action s user_name action_type ut ad cd tn tt tc dd td = (s, .ok none) ∧
    (handle_user_action s user_name action_type ut ad cd tn tt tc dd td).1.users user_name
      = s.users user_name := by
  have he : handle_user_action s user_name action_type ut ad cd tn tt tc dd td
      = (s, .ok none) := by
    simp [handle_user_action, h]
  exact ⟨he, by rw [he]⟩

def c2sys : PaiSystem :=
  { users := fun m => if m = "alice" then some (User.init "alice" 20000 (some "common")) else none,
    history_days := 30, inactivity_days := 7, current_date := 20300 }

/-- Witness for C2: a concrete submission of an identifier not in the catalog. -/
theorem unknown_event_type_no_mutation_witness :
    ACTION_WEIGHTS "NOT_AN_EVENT" = none ∧
    (handle_user_action c2sys "alice" "NOT_AN_EVENT" none none none none none none 0 0
        = (c2sys, .ok none) ∧
      (handle_user_action c2sys "alice" "NOT_AN_EVENT" none none none none none none 0 0).1.users "alice"
        = c2sys.users "alice") :=
  ⟨rfl, unknown_event_type_no_mutation c2sys "alice" "NOT_AN_EVENT"
    none none none none none none 0 0 rfl⟩

/-
Claim C3.
-/

def c3user : User :=
  { name := "Kavita", type := some "advertiser", creation_date := 20300,
    action_history :=
      [{ action_type := "AD_POSTED_MONEY", date := 20300, actor := true,
         weights := w_AD_POSTED_MONEY, delay_days := 0 },
       { action_type := "AD_POSTED_PAI", date := 20300, actor := true,
         weights := w_AD_POSTED_PAI, delay_days := 0 },
       { action_type := "RECEIVED_RATING", date := 20300, actor := true,
         weights := w_RECEIVED_RATING, delay_days := 0 }],
    score := 0, badge := none, age_score_component := 0, last_action_date := some 20300 }

def c3sys : PaiSystem :=
  { users := fun m => if m = "Kavita" then some c3user else none,
    history_days := 30, inactivity_days := 7, current_date := 20300 }

/-- Counterexample to C3: a recompute produces the score 29.5 — inside
[0, 100] — yet no tier range of `BADGE_LEVELS` contains it, the table scan
fails, and the stored badge is `none` (undefined), so the fallback region
between integer ranges is reachable for clamped scores. -/
theorem badge_gap_counterexample :
    ((c3sys.update_user_score "Kavita").users "Kavita").map User.score = some 29.5 ∧
    ((c3sys.update_user_score "Kavita").users "Kavita").map User.badge = some none ∧
    (0 : ℚ) ≤ 29.5 ∧ (29.5 : ℚ) ≤ 100 ∧
    get_badge_for_score 29.5 = none ∧
    BADGE_LEVELS.countP (fun e => decide ((e.1.1 : ℚ) ≤ 29.5 ∧ (29.5 : ℚ) ≤ (e.1.2 : ℚ))) = 0 := by
  decide

/-- C3 as amended: for every INTEGER score in [0, 100] the table scan
succeeds — exactly one tier range contains the score, the classifier
returns that tier and the out-of-range fallback is not consulted.  (For
fractional scores inside the gaps (29,30), (59,60), (79,80), (94,95), which
recompute can produce, the scan finds nothing and the badge is undefined —
see the counterexample.) -/
theorem badge_integer_scores_resolve (n : ℕ) (h : n ≤ 100) :
    BADGE_LEVELS.countP (fun e => decide ((e.1.1 : ℚ) ≤ (n : ℚ) ∧ (n : ℚ) ≤ (e.1.2 : ℚ))) = 1 ∧
    get_badge_for_score (n : ℚ)
      = (BADGE_LEVELS.find? (fun e => decide ((e.1.1 : ℚ) ≤ (n : ℚ) ∧ (n : ℚ) ≤ (e.1.2 : ℚ)))).map Prod.snd ∧
    (get_badge_for_score (n : ℚ)).isSome = true := by
  revert n h
  decide

/-- Witness for the amended C3 at the concrete score 42. -/
theorem badge_integer_scores_resolve_witness :
    (42 : ℕ) ≤ 100 ∧
    (BADGE_LEVELS.countP
        (fun e => decide ((e.1.1 : ℚ) ≤ ((42 : ℕ) : ℚ) ∧ ((42 : ℕ) : ℚ) ≤ (e.1.2 : ℚ))) = 1 ∧
      get_badge_for_score ((42 : ℕ) : ℚ)
        = (BADGE_LEVELS.find?
            (fun e => decide ((e.1.1 : ℚ) ≤ ((42 : ℕ) : ℚ) ∧ ((42 : ℕ) : ℚ) ≤ (e.1.2 : ℚ)))).map Prod.snd ∧
      (get_badge_for_score ((42 : ℕ) : ℚ)).isSome = true) :=
  ⟨by decide, badge_integer_scores_resolve 42 (by decide)⟩

/-
Claim C4.
-/

/-- C4: for every event record, the effective score as of a date equals the
role-selected weight `w` (base weight for actor-role records, declared
target weight or 0 for target-role records) when the decay rate is 0, and
`w * (1 - decay) ^ max 0 (asOf - occurrence)` when the decay rate is
positive; when the record carries a positive delay it is further multiplied
by `delayFactor ^ delayDays` (a missing delay-penalty factor meaning the
neutral factor 1) — the two penalties are independent and both apply when
both conditions hold.  With decay rate 0 the value is constant in the
elapsed days.  The hypothesis reflects the catalog contract that a declared
delay-penalty factor lies in (0, 1]. -/
theorem effective_score_formula (a : UserAction) (cur : ℤ)
    (hf : ∀ f, a.weights.delay_factor = some f → f ≤ 1) :
    (a.get_effective_score cur =
      (let w : ℚ := if a.actor then a.weights.score else a.weights.target_score.getD 0
       let decayed : ℚ :=
         if 0 < a.weights.decay then w * (1 - a.weights.decay) ^ (max (cur - a.date) 0).toNat
         else w
       if 0 < a.delay_days then decayed * (a.weights.delay_factor.getD 1) ^ a.delay_days
       else decayed)) ∧
    (a.weights.decay = 0 → ∀ c c' : ℤ, a.get_effective_score c = a.get_effective_score c') := by
  constructor
  · unfold UserAction.get_effective_score
    dsimp only
    have hmax : (max (cur - a.date) 0).toNat = (cur - a.date).toNat := by
      rcases le_total (cur - a.date) 0 with h | h
      · rw [max_eq_right h, Int.toNat_of_nonpos h]
        rfl
      · rw [max_eq_left h]
    rw [hmax]
    rcases Nat.eq_zero_or_pos a.delay_days with hd | hd
    · simp [hd]
    · cases hdf : a.weights.delay_factor with
      | none => simp [hd, hdf]
      | some f =>
          rcases lt_or_eq_of_le (hf f hdf) with hlt | heq
          · simp [hd, hdf, hlt]
          · simp [hd, hdf, heq]
  · intro h0 c c'
    simp [UserAction.get_effective_score, h0]

def c4act : UserAction :=
  { action_type := "AD_LIKED", date := 20000, actor := false,
    weights := w_AD_LIKED, delay_days := 3 }

/-- Witness for C4: a target-role AD_LIKED record, 10 days old, delayed by
3 days. -/
theorem effective_score_formula_witness :
    (∀ f, c4act.weights.delay_factor = some f → f ≤ 1) ∧
    ((c4act.get_effective_score 20010 =
      (let w : ℚ := if c4act.actor then c4act.weights.score else c4act.weights.target_score.getD 0
       let decayed : ℚ :=
         if 0 < c4act.weights.decay then
           w * (1 - c4act.weights.decay) ^ (max ((20010 : ℤ) - c4act.date) 0).toNat
         else w
       if 0 < c4act.delay_days then decayed * (c4act.weights.delay_factor.getD 1) ^ c4act.delay_days
       else decayed)) ∧
    (c4act.weights.decay = 0 →
      ∀ c c' : ℤ, c4act.get_effective_score c = c4act.get_effective_score c')) :=
  have hf : ∀ f, c4act.weights.delay_factor = some f → f ≤ 1 := by
    intro f h
    rw [show c4act.weights.delay_factor = some 0.97 from rfl] at h
    injection h with h
    rw [← h]
    norm_num
  ⟨hf, effective_score_formula c4act 20010 hf⟩

/-
Claim C5.
-/

/-- C5: a recompute replaces the stored history by exactly the records dated
on or after `cutoff = current_date - history_days` (a destructive
truncation of the stored list, not a view): every strictly older record is
gone from the stored history, every record on or after the cutoff is
retained, and the activity sum feeding the stored score ranges over exactly
the retained records. -/
theorem recompute_prunes (s : PaiSystem) (n : String) (u : User)
    (hu : s.users n = some u) :
    ∃ u', (s.update_user_score n).users n = some u' ∧
      u'.action_history = u.action_history.filter
        (fun a => decide (s.current_date - (s.history_days : ℤ) ≤ a.date)) ∧
      (∀ a ∈ u.action_history, a.date < s.current_date - (s.history_days : ℤ) →
        a ∉ u'.action_history) ∧
      (∀ a ∈ u.action_history, s.current_date - (s.history_days : ℤ) ≤ a.date →
        a ∈ u'.action_history) ∧
      u'.score = clampScore
        ((u'.action_history.map (fun a => a.get_effective_score s.current_date)).sum +
          MAX_AGE_SCORE_CONTRIBUTION * ageMultiplier (totalMonths s.current_date u.creation_date)) := by
  refine ⟨recomputeUserAt s.current_date s.history_days u,
    PaiSystem.update_user_score_users_self s n u hu, rfl, ?_, ?_, rfl⟩
  · intro a ha hlt hmem
    have : a ∈ u.action_history.filter
        (fun a => decide (s.current_date - (s.history_days : ℤ) ≤ a.date)) := hmem
    rw [List.mem_filter] at this
    have hle : s.current_date - (s.history_days : ℤ) ≤ a.date := by
      simpa using this.2
    linarith
  · intro a ha hle
    show a ∈ u.action_history.filter
      (fun a => decide (s.current_date - (s.history_days : ℤ) ≤ a.date))
    rw [List.mem_filter]
    exact ⟨ha, by simpa using hle⟩

def c5user : User :=
  { name := "Bo", type := some "common", creation_date := 19000,
    action_history :=
      [{ action_type := "LOGIN", date := 20250, actor := true, weights := w_LOGIN, delay_days := 0 },
       { action_type := "LOGIN", date := 20295, actor := true, weights := w_LOGIN, delay_days := 0 }],
    score := 0, badge := none, age_score_component := 0, last_action_date := some 20295 }

def c5sys : PaiSystem :=
  { users := fun m => if m = "Bo" then some c5user else none,
    history_days := 30, inactivity_days := 7, current_date := 20300 }

/-- Witness for C5: one record 50 days old (expired) and one 5 days old
(retained), window 30 days. -/
theorem recompute_prunes_witness :
    c5sys.users "Bo" = some c5user ∧
    (∃ u', (c5sys.update_user_score "Bo").users "Bo" = some u' ∧
      u'.action_history = c5user.action_history.filter
        (fun a => decide (c5sys.current_date - (c5sys.history_days : ℤ) ≤ a.date)) ∧
      (∀ a ∈ c5user.action_history, a.date < c5sys.current_date - (c5sys.history_days : ℤ) →
        a ∉ u'.action_history) ∧
      (∀ a ∈ c5user.action_history, c5sys.current_date - (c5sys.history_days : ℤ) ≤ a.date →
        a ∈ u'.action_history) ∧
      u'.score = clampScore
        ((u'.action_history.map (fun a => a.get_effective_score c5sys.current_date)).sum +
          MAX_AGE_SCORE_CONTRIBUTION *
            ageMultiplier (totalMonths c5sys.current_date c5user.creation_date))) :=
  ⟨rfl, recompute_prunes c5sys "Bo" c5user rfl⟩

/-
Claim C6.
-/

/-- `ageMultiplier` restated over whole months: the fractional-year
thresholds 8, 5, 2 correspond to 96, 60 and 24 whole months. -/
theorem ageMultiplier_month_thresholds (m : ℤ) :
    ageMultiplier m
      = if 96 ≤ m then 0.5 else if 60 ≤ m then 0.4 else if 24 ≤ m then 0.3 else 0.15 := by
  unfold ageMultiplier
  dsimp only
  have e8 : ((8 : ℚ) ≤ (m : ℚ) / 12) ↔ ((96 : ℤ) ≤ m) := by
    rw [le_div_iff₀ (by norm_num : (0 : ℚ) < 12)]
    norm_num
    exact_mod_cast Iff.rfl
  have e5 : ((5 : ℚ) ≤ (m : ℚ) / 12) ↔ ((60 : ℤ) ≤ m) := by
    rw [le_div_iff₀ (by norm_num : (0 : ℚ) < 12)]
    norm_num
    exact_mod_cast Iff.rfl
  have e2 : ((2 : ℚ) ≤ (m : ℚ) / 12) ↔ ((24 : ℤ) ≤ m) := by
    rw [le_div_iff₀ (by norm_num : (0 : ℚ) < 12)]
    norm_num
    exact_mod_cast Iff.rfl
  simp only [e8, e5, e2]

/-- C6: the tenure bonus stored by a recompute equals 20 times the piecewise
age multiplier of the whole-month account age; it always takes one of the
four values 10, 8, 6, 3 (multipliers 0.5, 0.4, 0.3, 0.15 at the 8-, 5- and
2-year whole-month thresholds), is at least 3 (so nonzero even for an
account created on the current date), and is monotonically non-decreasing
in the whole-month account age. -/
theorem tenure_bonus_properties :
    (∀ (d : ℤ) (w : ℕ) (u : User),
      (recomputeUserAt d w u).age_score_component
        = MAX_AGE_SCORE_CONTRIBUTION * ageMultiplier (totalMonths d u.creation_date)) ∧
    (∀ m : ℤ, MAX_AGE_SCORE_CONTRIBUTION * ageMultiplier m = 10 ∨
      MAX_AGE_SCORE_CONTRIBUTION * ageMultiplier m = 8 ∨
      MAX_AGE_SCORE_CONTRIBUTION * ageMultiplier m = 6 ∨
      MAX_AGE_SCORE_CONTRIBUTION * ageMultiplier m = 3) ∧
    (∀ m : ℤ, 3 ≤ MAX_AGE_SCORE_CONTRIBUTION * ageMultiplier m) ∧
    (∀ m m' : ℤ, m ≤ m' →
      MAX_AGE_SCORE_CONTRIBUTION * ageMultiplier m
        ≤ MAX_AGE_SCORE_CONTRIBUTION * ageMultiplier m') ∧
    (∀ m : ℤ,
      (96 ≤ m → MAX_AGE_SCORE_CONTRIBUTION * ageMultiplier m = 10) ∧
      (60 ≤ m → m < 96 → MAX_AGE_SCORE_CONTRIBUTION * ageMultiplier m = 8) ∧
      (24 ≤ m → m < 60 → MAX_AGE_SCORE_CONTRIBUTION * ageMultiplier m = 6) ∧
      (m < 24 → MAX_AGE_SCORE_CONTRIBUTION * ageMultiplier m = 3)) ∧
    (∀ today : ℤ, MAX_AGE_SCORE_CONTRIBUTION * ageMultiplier (totalMonths today today) = 3) := by
  have hval : ∀ m : ℤ, MAX_AGE_SCORE_CONTRIBUTION * ageMultiplier m
      = if 96 ≤ m then 10 else if 60 ≤ m then 8 else if 24 ≤ m then 6 else 3 := by
    intro m
    rw [ageMultiplier_month_thresholds, MAX_AGE_SCORE_CONTRIBUTION]
    split_ifs <;> norm_num
  refine ⟨fun d w u => rfl, ?_, ?_, ?_, ?_, ?_⟩
  · intro m
    rw [hval]
    split_ifs <;> norm_num
  · intro m
    rw [hval]
    split_ifs <;> norm_num
  · intro m m' hmm
    rw [hval, hval]
    split_ifs <;> first | (exfalso; omega) | norm_num
  · intro m
    refine ⟨?_, ?_, ?_, ?_⟩ <;> intros <;> rw [hval] <;> split_ifs <;> first | rfl | omega
  · intro today
    have h0 : totalMonths today today = 0 := by
      unfold totalMonths
      ring
    rw [h0, hval]
    norm_num

/-
Claim C7.
-/

theorem recomputeUserAt_idem (d : ℤ) (w : ℕ) (u : User) :
    recomputeUserAt d w (recomputeUserAt d w u) = recomputeUserAt d w u := by
  cases u
  simp [recomputeUserAt, List.filter_filter]

/-- C7: recompute is idempotent — with no events added and no clock advance
in between, a second `update_user_score` leaves the participant's registry
entry (score, badge and pruned history alike) exactly as the first one did. -/
theorem recompute_idempotent (s : PaiSystem) (n : String) :
    ((s.update_user_score n).update_user_score n).users n
      = (s.update_user_score n).users n := by
  cases hu : s.users n with
  | none => simp only [PaiSystem.update_user_score_of_none s n hu]
  | some u =>
      have h1 : (s.update_user_score n).users n
          = some (recomputeUserAt s.current_date s.history_days u) :=
        PaiSystem.update_user_score_users_self s n u hu
      have h2 := PaiSystem.update_user_score_users_self (s.update_user_score n) n _ h1
      rw [h2, h1, PaiSystem.update_user_score_current_date,
        PaiSystem.update_user_score_history_days, recomputeUserAt_idem]

/-
Claim C8.
-/

/-- C8: a submission whose event type is in the catalog but whose acting
participant's role class is not among the eligible roles does not raise,
appends no record, triggers no recompute, and returns the unchanged state
together with the unchanged acting participant.  (The hypothesis on the
supplied role class rules out the separate role-mismatch `ValueError` of
user resolution, which fires before the eligibility check.) -/
theorem ineligible_role_rejected (s : PaiSystem) (un aty : String) (ut : Option String)
    (ad cd : Option ℤ) (tn tt : Option String) (tc : Option ℤ) (dd td : ℕ)
    (info : ActionWeights) (actor : User)
    (h1 : ACTION_WEIGHTS aty = some info)
    (h2 : s.users un = some actor)
    (h3 : typeAllowed actor.type info.allowed_for = false)
    (h4 : optTruthy ut = true → ut = actor.type) :
    handle_user_action s un aty ut ad cd tn tt tc dd td = (s, .ok (some actor)) := by
  have hg : s.get_or_create_user un ut cd = (s, .ok actor) := by
    unfold PaiSystem.get_or_create_user
    rw [h2]
    dsimp only
    rw [if_neg]
    rintro ⟨hT, hne⟩
    exact hne (h4 hT).symm
  unfold handle_user_action
  rw [h1]
  dsimp only
  rw [hg]
  dsimp only
  rw [h3]
  rfl

def c8actor : User := User.init "bob" 20000 (some "advertiser")

def c8sys : PaiSystem :=
  { users := fun m => if m = "bob" then some c8actor else none,
    history_days := 30, inactivity_days := 7, current_date := 20300 }

/-- Witness for C8: an advertiser submitting AD_LIKED, which only the
common role may originate. -/
theorem ineligible_role_rejected_witness :
    ACTION_WEIGHTS "AD_LIKED" = some w_AD_LIKED ∧
    c8sys.users "bob" = some c8actor ∧
    typeAllowed c8actor.type w_AD_LIKED.allowed_for = false ∧
    handle_user_action c8sys "bob" "AD_LIKED" none none none none none none 0 0
      = (c8sys, .ok (some c8actor)) :=
  ⟨rfl, rfl, rfl,
    ineligible_role_rejected c8sys "bob" "AD_LIKED" none none none none none none 0 0
      w_AD_LIKED c8actor rfl rfl rfl (fun h => absurd h (by decide))⟩

/-
Claim C10.
-/

/-- C10: naming an unregistered participant with an in-catalog event type
for which the supplied role class is ineligible still creates and registers
the participant — with empty history, score 0 and no badge — before the
eligibility check rejects the submission; the returned state differs from
the input state exactly by this registration. -/
theorem reject_still_registers (s : PaiSystem) (un aty : String) (ut : Option String)
    (ad cd : Option ℤ) (tn tt : Option String) (tc : Option ℤ) (dd td : ℕ)
    (info : ActionWeights)
    (h0 : s.users un = none)
    (h1 : ACTION_WEIGHTS aty = some info)
    (h2 : typeAllowed ut info.allowed_for = false) :
    handle_user_action s un aty ut ad cd tn tt tc dd td
      = (s.setUser un (User.init un (cd.getD s.current_date) ut),
         .ok (some (User.init un (cd.getD s.current_date) ut))) ∧
    (s.setUser un (User.init un (cd.getD s.current_date) ut)).users un
      = some (User.init un (cd.getD s.current_date) ut) ∧
    (User.init un (cd.getD s.current_date) ut).action_history = [] ∧
    (User.init un (cd.getD s.current_date) ut).score = 0 ∧
    (User.init un (cd.getD s.current_date) ut).badge = none ∧
    (User.init un (cd.getD s.current_date) ut).type = ut := by
  have hg : s.get_or_create_user un ut cd
      = (s.setUser un (User.init un (cd.getD s.current_date) ut),
         .ok (User.init un (cd.getD s.current_date) ut)) := by
    unfold PaiSystem.get_or_create_user
    rw [h0]
  have h2' : typeAllowed (User.init un (cd.getD s.current_date) ut).type info.allowed_for
      = false := h2
  refine ⟨?_, PaiSystem.users_setUser_self _ _ _, rfl, rfl, rfl, rfl⟩
  unfold handle_user_action
  rw [h1]
  dsimp only
  rw [hg]
  dsimp only
  rw [h2']
  rfl

def c10sys : PaiSystem :=
  { users := fun _ => none, history_days := 30, inactivity_days := 7, current_date := 20300 }

/-- Witness for C10: an unregistered common user submits GAINED_FOLLOWER,
an advertiser-only event type. -/
theorem reject_still_registers_witness :
    c10sys.users "carol" = none ∧
    ACTION_WEIGHTS "GAINED_FOLLOWER" = some w_GAINED_FOLLOWER ∧
    typeAllowed (some "common") w_GAINED_FOLLOWER.allowed_for = false ∧
    (handle_user_action c10sys "carol" "GAINED_FOLLOWER" (some "common") none none none none none 0 0
        = (c10sys.setUser "carol" (User.init "carol" ((none : Option ℤ).getD c10sys.current_date) (some "common")),
           .ok (some (User.init "carol" ((none : Option ℤ).getD c10sys.current_date) (some "common")))) ∧
      (c10sys.setUser "carol" (User.init "carol" ((none : Option ℤ).getD c10sys.current_date) (some "common"))).users "carol"
        = some (User.init "carol" ((none : Option ℤ).getD c10sys.current_date) (some "common")) ∧
      (User.init "carol" ((none : Option ℤ).getD c10sys.current_date) (some "common")).action_history = [] ∧
      (User.init "carol" ((none : Option ℤ).getD c10sys.current_date) (some "common")).score = 0 ∧
      (User.init "carol" ((none : Option ℤ).getD c10sys.current_date) (some "common")).badge = none ∧
      (User.init "carol" ((none : Option ℤ).getD c10sys.current_date) (some "common")).type = some "common") :=
  ⟨rfl, rfl, rfl,
    reject_still_registers c10sys "carol" "GAINED_FOLLOWER" (some "common")
      none none none none none 0 0 w_GAINED_FOLLOWER rfl rfl rfl⟩

/-
Claim C9.
-/

/-- C9: a submission of a secondary-party event type by an eligible actor
with a supplied, role-consistent target appends exactly one actor-role
record (delay `delay_days`) to the submitter and exactly one target-role
record (delay `target_delay_days`, falling back to `delay_days` when the
former is 0/unsupplied) to the target, and recomputes both participants;
the call returns the recomputed acting participant.  The hypotheses name
the two user-resolution steps succeeding with states `s1` and `s2`. -/
theorem secondary_party_dual_append
    (s s1 s2 : PaiSystem) (un tname aty : String) (ut tt : Option String)
    (ad cd tc : Option ℤ) (dd td : ℕ) (info : ActionWeights) (actor target : User)
    (h1 : ACTION_WEIGHTS aty = some info)
    (h2 : info.affects_target = true)
    (h3 : s.get_or_create_user un ut cd = (s1, .ok actor))
    (h4 : typeAllowed actor.type info.allowed_for = true)
    (h5 : tname ≠ un)
    (h6 : tname ≠ "")
    (h7 : ((s1.setUser un (actor.add_action
            { action_type := aty, date := ad.getD s.current_date, actor := true,
              weights := info, delay_days := dd })).update_user_score un).get_or_create_user
            tname tt tc = (s2, .ok target)) :
    ∃ s' : PaiSystem,
      handle_user_action s un aty ut ad cd (some tname) tt tc dd td = (s', .ok (s'.users un)) ∧
      s'.users tname = some (recomputeUserAt s.current_date s.history_days
        (target.add_action
          { action_type := aty, date := ad.getD s.current_date, actor := false,
            weights := info, delay_days := if td = 0 then dd else td })) ∧
      s'.users un = some (recomputeUserAt s.current_date s.history_days
        (actor.add_action
          { action_type := aty, date := ad.getD s.current_date, actor := true,
            weights := info, delay_days := dd })) := by
  obtain ⟨hA1, hAother, hAcd, hAhd⟩ := PaiSystem.get_or_create_user_ok _ _ _ _ _ _ h3
  obtain ⟨hT1, hTother, hTcd, hThd⟩ := PaiSystem.get_or_create_user_ok _ _ _ _ _ _ h7
  have hcd2 : s2.current_date = s.current_date := by
    rw [hTcd, PaiSystem.update_user_score_current_date, PaiSystem.setUser_current_date, hAcd]
  have hhd2 : s2.history_days = s.history_days := by
    rw [hThd, PaiSystem.update_user_score_history_days, PaiSystem.setUser_history_days, hAhd]
  refine ⟨(s2.setUser tname (target.add_action
      { action_type := aty, date := ad.getD s.current_date, actor := false,
        weights := info, delay_days := if td = 0 then dd else td })).update_user_score tname,
    ?_, ?_, ?_⟩
  · simp only [handle_user_action, h1, h3, h4, h2, h7]
    simp [h6]
  · rw [PaiSystem.update_user_score_users_self _ tname _ (PaiSystem.users_setUser_self _ _ _),
      PaiSystem.setUser_current_date, PaiSystem.setUser_history_days, hcd2, hhd2]
  · rw [PaiSystem.update_user_score_users_ne _ un tname (Ne.symm h5),
      PaiSystem.users_setUser_ne _ un tname _ (Ne.symm h5),
      hTother un (Ne.symm h5),
      PaiSystem.update_user_score_users_self _ un _ (PaiSystem.users_setUser_self _ _ _),
      PaiSystem.setUser_current_date, PaiSystem.setUser_history_days, hAcd, hAhd]

def c9sys : PaiSystem :=
  { users := fun _ => none, history_days := 30, inactivity_days := 7, current_date := 20300 }

def c9actor : User := User.init "Trupti" 20300 (some "common")

def c9target : User := User.init "Sai" 20300 (some "advertiser")

def c9s1 : PaiSystem := c9sys.setUser "Trupti" c9actor

def c9recA : UserAction :=
  { action_type := "AD_LIKED", date := 20300, actor := true, weights := w_AD_LIKED, delay_days := 0 }

def c9recB : UserAction :=
  { action_type := "AD_LIKED", date := 20300, actor := false, weights := w_AD_LIKED, delay_days := 0 }

def c9s2 : PaiSystem :=
  ((c9s1.setUser "Trupti" (c9actor.add_action c9recA)).update_user_score "Trupti").setUser
    "Sai" c9target

/-- Witness for C9: the fresh common user Trupti submits AD_LIKED targeting
the fresh advertiser Sai. -/
theorem secondary_party_dual_append_witness :
    ACTION_WEIGHTS "AD_LIKED" = some w_AD_LIKED ∧
    w_AD_LIKED.affects_target = true ∧
    c9sys.get_or_create_user "Trupti" (some "common") none = (c9s1, .ok c9actor) ∧
    typeAllowed c9actor.type w_AD_LIKED.allowed_for = true ∧
    (((c9s1.setUser "Trupti" (c9actor.add_action c9recA)).update_user_score
        "Trupti").get_or_create_user "Sai" (some "advertiser") none = (c9s2, .ok c9target)) ∧
    (∃ s' : PaiSystem,
      handle_user_action c9sys "Trupti" "AD_LIKED" (some "common") none none
          (some "Sai") (some "advertiser") none 0 0 = (s', .ok (s'.users "Trupti")) ∧
      s'.users "Sai" = some (recomputeUserAt c9sys.current_date c9sys.history_days
        (c9target.add_action c9recB)) ∧
      s'.users "Trupti" = some (recomputeUserAt c9sys.current_date c9sys.history_days
        (c9actor.add_action c9recA))) :=
  ⟨rfl, rfl, rfl, rfl, rfl,
    secondary_party_dual_append c9sys c9s1 c9s2 "Trupti" "Sai" "AD_LIKED"
      (some "common") (some "advertiser") none none none 0 0 w_AD_LIKED c9actor c9target
      rfl rfl rfl rfl (by decide) (by decide) rfl⟩
